import Mathlib

/-!
Shallow embedding of `src/main.py` (Gemini Research Assistant), covering the
orchestration core: the `APIKeyManager` credential rotator, the `get_clients`
factory, the module-level client globals, the `search` tool adapter, the
`AgentRunnerThread.run` worker, and `AgentApp.handle_run` query validation.

Python mutable state is threaded explicitly; exceptions become `Except`;
emitted Qt signals (`log_ready`, `result_ready`) become an event trace.
-/

namespace DeepSearch

/-- Python exceptions that the embedded code can raise.
`valueError "No API keys available."` is the spec's `NoCredentialsAvailable`;
`zeroDivisionError` is what `% 0` raises; `indexError` is out-of-range list
indexing. -/
inductive PyError where
  | valueError (msg : String)
  | zeroDivisionError
  | indexError
  deriving Repr, DecidableEq

/-- The message `str(e)` would produce for each modelled exception. -/
def PyError.str : PyError → String
  | .valueError m => m
  | .zeroDivisionError => "integer division or modulo by zero"
  | .indexError => "list index out of range"

/-- Observable events of one worker run: `log m` is `log_ready.emit m`
(the generic stage/status messages), `usingKey n` is the rotator's
log-callback message for `get_key` (rendered as the 1-based index message),
`switchingKey n` likewise for `rotate_key`, and `result t` is
`result_ready.emit t`. -/
inductive Event where
  | log (msg : String)
  | usingKey (n : Nat)
  | switchingKey (n : Nat)
  | result (text : String)
  deriving Repr, DecidableEq

/-- The exact string each event carries in the source. -/
def Event.render : Event → String
  | .log m => m
  | .usingKey n => "🔑 Using API Key No. " ++ toString n
  | .switchingKey n => "🔄 Switching to API Key No. " ++ toString n
  | .result t => t

/-- `APIKeyManager`: a list of keys and a current index (src/main.py lines
29-48). The `log_callback` field is modelled as the `cb : Bool` argument of
the methods (set when `AgentRunnerThread.run` assigns the callback). -/
structure APIKeyManager where
  keys : List String
  index : Nat
  deriving Repr, DecidableEq

/-- `APIKeyManager.__init__`: `self.keys = [k for k in keys if k]` — input
entries are `Option String` (absent env vars are `none`); Python truthiness
keeps exactly the present, non-empty strings. `self.index = 0`. -/
def APIKeyManager.init (keys : List (Option String)) : APIKeyManager :=
  { keys := keys.filterMap (fun k =>
      match k with
      | none => none
      | some s => if s = "" then none else some s)
    index := 0 }

/-- `APIKeyManager.get_key`: raises `ValueError("No API keys available.")` on
an empty key list, otherwise reads `keys[index]` (an `IndexError` if the
index were out of range) and, when the log callback is set, emits the
`🔑 Using API Key No. {index+1}` message. The manager state is unchanged. -/
def APIKeyManager.get_key (m : APIKeyManager) (cb : Bool) :
    Except PyError (String × APIKeyManager × List Event) :=
  if m.keys = [] then .error (.valueError "No API keys available.")
  else if h : m.index < m.keys.length then
    .ok (m.keys.get ⟨m.index, h⟩, m,
      if cb then [Event.usingKey (m.index + 1)] else [])
  else .error .indexError

/-- `APIKeyManager.rotate_key`: `self.index = (self.index + 1) % len(self.keys)`
(a `ZeroDivisionError` when the key list is empty), then reads the new
current key and, when the log callback is set, emits the
`🔄 Switching to API Key No. {index+1}` message. -/
def APIKeyManager.rotate_key (m : APIKeyManager) (cb : Bool) :
    Except PyError (String × APIKeyManager × List Event) :=
  if m.keys.length = 0 then .error .zeroDivisionError
  else
    let i := (m.index + 1) % m.keys.length
    if h : i < m.keys.length then
      .ok (m.keys.get ⟨i, h⟩, { m with index := i },
        if cb then [Event.switchingKey (i + 1)] else [])
    else .error .indexError

/-- Iterates `rotate_key` (ignoring the returned key and events) `n` times;
an error (only possible on an empty key list) leaves the state as-is. -/
def rotateN (m : APIKeyManager) : Nat → APIKeyManager
  | 0 => m
  | Nat.succ n =>
    match m.rotate_key false with
    | .ok (_, m2, _) => rotateN m2 n
    | .error _ => m

/-- `AsyncOpenAI(api_key=..., base_url=...)`: a handle bound to the
credentials passed at construction. -/
structure AsyncOpenAIClient where
  api_key : String
  base_url : String
  deriving Repr, DecidableEq

/-- `AsyncTavilyClient(api_key=...)`: a handle bound to the credential passed
at construction. -/
structure TavilyClient where
  api_key : String
  deriving Repr, DecidableEq

/-- The `BASE_URL` constant of `get_clients`. -/
def BASE_URL : String := "https://generativelanguage.googleapis.com/v1beta/openai/"

/-- `get_clients()` (src/main.py lines 58-64): reads `get_key()` from the
gemini then the tavily manager and constructs one client per capability bound
to those keys. Returns the client pair, the (unchanged) manager states, and
the emitted log events. -/
def get_clients (g t : APIKeyManager) (cb : Bool) :
    Except PyError ((AsyncOpenAIClient × TavilyClient) × (APIKeyManager × APIKeyManager) × List Event) := do
  let (gemini_key, g2, ev1) ← g.get_key cb
  let (tavily_key, t2, ev2) ← t.get_key cb
  return ((⟨gemini_key, BASE_URL⟩, ⟨tavily_key⟩), (g2, t2), ev1 ++ ev2)

/-- The module-level mutable globals: the two managers (lines 52-53) and the
client pair bound at line 66 (`external_client, tavily_client = get_clients()`),
which the models (lines 69-70) and the `search`/`extract_context` tools
(lines 73-79) close over. -/
structure ModuleState where
  gemini : APIKeyManager
  tavily : APIKeyManager
  external_client : AsyncOpenAIClient
  tavily_client : TavilyClient
  deriving Repr, DecidableEq

/-- The client pair the pipeline's model and tool calls actually use: the
module globals (`flashlite`/`flash` wrap `external_client`; `search` and
`extract_context` call `tavily_client`). -/
def ModuleState.pipelineClients (st : ModuleState) : AsyncOpenAIClient × TavilyClient :=
  (st.external_client, st.tavily_client)

/-- Module initialisation (lines 52-66): build the two managers from the env
key lists, then `external_client, tavily_client = get_clients()` (with no log
callback set yet). A `get_key` failure aborts process start. -/
def initModule (geminiKeys tavilyKeys : List (Option String)) :
    Except PyError ModuleState :=
  match get_clients (APIKeyManager.init geminiKeys) (APIKeyManager.init tavilyKeys) false with
  | .error e => .error e
  | .ok ((ec, tc), (g2, t2), _) => .ok ⟨g2, t2, ec, tc⟩

/-- Outcome of the external `Runner.run(agent, query)` call: either a final
output text or a raised exception with message `str(e)`. -/
inductive PipelineResult where
  | ok (final_output : String)
  | raises (msg : String)
  deriving Repr, DecidableEq

/-- The four fixed stage progress messages, in emission order
(src/main.py lines 136-145). -/
def stageMessages : List String :=
  ["📝 Planning the steps...", "🔎 Searching information...",
   "📚 Extracting context...", "🧠 Summarizing findings..."]

/-- The stage progress log events, in emission order. -/
def stageLogs : List Event := stageMessages.map Event.log

/-- The `except` block of `AgentRunnerThread.run` (lines 150-156): log the
rotation notice, rotate both managers, call `get_clients()` **discarding its
result** (the module globals are not reassigned), then emit the Failure text
`❌ Error: {str(e)}\n\n{traceback.format_exc()}`. An exception escaping the
handler (rotation on an empty key list) ends the thread with no result
event. -/
def handleFailure (st : ModuleState) (errMsg trace : String) (evsBefore : List Event) :
    ModuleState × List Event :=
  let evs0 := evsBefore ++ [Event.log "⚠️ Error occurred, rotating API key..."]
  match st.gemini.rotate_key true with
  | .error _ => (st, evs0)
  | .ok (_, g2, ev1) =>
    match st.tavily.rotate_key true with
    | .error _ => ({ st with gemini := g2 }, evs0 ++ ev1)
    | .ok (_, t2, ev2) =>
      let st2 := { st with gemini := g2, tavily := t2 }
      match get_clients g2 t2 true with
      | .error _ => (st2, evs0 ++ ev1 ++ ev2)
      | .ok (_, (g3, t3), ev3) =>
        ({ st2 with gemini := g3, tavily := t3 },
         evs0 ++ ev1 ++ ev2 ++ ev3 ++
           [Event.result ("❌ Error: " ++ errMsg ++ "\n\n" ++ trace)])

/-- `AgentRunnerThread.run` (lines 126-156): sets the managers' log callbacks
(hence `cb := true` below), calls `get_clients()` (result discarded), emits
the four stage messages, invokes the pipeline (`Runner.run(agent, query)`,
modelled by the `pipeline` parameter), and emits the final output; any
exception in the body goes to `handleFailure`. `trace` stands for
`traceback.format_exc()`. -/
def AgentRunnerThread.run (st : ModuleState) (pipeline : String → PipelineResult)
    (trace : String) (query : String) : ModuleState × List Event :=
  match get_clients st.gemini st.tavily true with
  | .error e => handleFailure st e.str trace []
  | .ok (_, (g2, t2), evK) =>
    let st2 : ModuleState := { st with gemini := g2, tavily := t2 }
    match pipeline query with
    | .ok text => (st2, evK ++ stageLogs ++ [Event.result text])
    | .raises msg => handleFailure st2 msg trace (evK ++ stageLogs)

/-- The `search` tool adapter (lines 73-75): forwards the query to the
module-level `tavily_client` with `max_results=2` and returns the raw result.
`behavior` is the external Tavily API semantics
(client, query, max_results ↦ result). -/
def search {α : Type} (behavior : TavilyClient → String → Nat → α)
    (st : ModuleState) (query : String) : α :=
  behavior st.tavily_client query 2

/-- Python whitespace characters recognised by `str.strip()`: the
Py_UNICODE_ISSPACE set — ASCII 0x09–0x0D, the separators 0x1C–0x1F, space,
NEL (0x85), NBSP (0xA0), and the Unicode space/line/paragraph separators
(0x1680, 0x2000–0x200A, 0x2028, 0x2029, 0x202F, 0x205F, 0x3000). -/
def isPySpace (c : Char) : Bool :=
  (9 ≤ c.toNat && c.toNat ≤ 13) ||
  (28 ≤ c.toNat && c.toNat ≤ 31) ||
  c.toNat = 32 || c.toNat = 0x85 || c.toNat = 0xA0 ||
  c.toNat = 0x1680 ||
  (0x2000 ≤ c.toNat && c.toNat ≤ 0x200A) ||
  c.toNat = 0x2028 || c.toNat = 0x2029 || c.toNat = 0x202F ||
  c.toNat = 0x205F || c.toNat = 0x3000

/-- `str.strip()`: drop whitespace from both ends. -/
def strip (s : String) : String :=
  String.mk (((s.data.dropWhile isPySpace).reverse.dropWhile isPySpace).reverse)

/-- Outcome of `AgentApp.handle_run`: either the validation message is shown
and no worker thread starts, or an `AgentRunnerThread` is constructed with
the stripped query and started. -/
inductive HandleRunOutcome where
  | validationFailure (message : String)
  | workerStarted (query : String)
  deriving Repr, DecidableEq

/-- `AgentApp.handle_run` (lines 261-271): `query = self.input_box.text().strip()`;
if falsy, show `⚠️ Please enter a valid question.` and return without starting
a thread; otherwise start `AgentRunnerThread(query)`. -/
def handle_run (text : String) : HandleRunOutcome :=
  let query := strip text
  if query = "" then HandleRunOutcome.validationFailure "⚠️ Please enter a valid question."
  else HandleRunOutcome.workerStarted query

/-- Projects the stage progress message out of an event, if it is one. -/
def Event.stageMsg : Event → Option String
  | .log m => if m ∈ stageMessages then some m else none
  | _ => none

/-- Projects the terminal-outcome text out of an event, if it is one. -/
def Event.resultText : Event → Option String
  | .result t => some t
  | _ => none

/-- Recognises a rotation (`rotate_key`) log event. -/
def Event.isSwitching : Event → Bool
  | .switchingKey _ => true
  | _ => false

/-! ## Helper lemmas characterising the success paths -/

/-- `get_key` on a manager with keys and an in-range index returns the current
key, leaves the manager unchanged, and logs when the callback is set. -/
theorem get_key_ok (m : APIKeyManager) (cb : Bool)
    (h1 : m.keys ≠ []) (h2 : m.index < m.keys.length) :
    m.get_key cb = .ok (m.keys.get ⟨m.index, h2⟩, m,
      if cb then [Event.usingKey (m.index + 1)] else []) := by
  unfold APIKeyManager.get_key
  rw [if_neg h1, dif_pos h2]

/-- `rotate_key` on a manager with a non-empty key list advances the index by
one modulo the length and returns the new current key. -/
theorem rotate_key_ok (m : APIKeyManager) (cb : Bool) (h1 : m.keys ≠ []) :
    m.rotate_key cb = .ok
      (m.keys.get ⟨(m.index + 1) % m.keys.length,
        Nat.mod_lt _ (List.length_pos.mpr h1)⟩,
      { m with index := (m.index + 1) % m.keys.length },
      if cb then [Event.switchingKey ((m.index + 1) % m.keys.length + 1)] else []) := by
  have hlen : ¬ m.keys.length = 0 :=
    Nat.pos_iff_ne_zero.mp (List.length_pos.mpr h1)
  have h : (m.index + 1) % m.keys.length < m.keys.length :=
    Nat.mod_lt _ (List.length_pos.mpr h1)
  simp only [APIKeyManager.rotate_key, if_neg hlen, dif_pos h]

/-- `get_clients` on two valid managers returns the client pair bound to the
two current keys and leaves both managers unchanged. -/
theorem get_clients_ok (g t : APIKeyManager) (cb : Bool)
    (hg1 : g.keys ≠ []) (hg2 : g.index < g.keys.length)
    (ht1 : t.keys ≠ []) (ht2 : t.index < t.keys.length) :
    get_clients g t cb = .ok
      ((⟨g.keys.get ⟨g.index, hg2⟩, BASE_URL⟩, ⟨t.keys.get ⟨t.index, ht2⟩⟩),
       (g, t),
       (if cb then [Event.usingKey (g.index + 1)] else []) ++
       (if cb then [Event.usingKey (t.index + 1)] else [])) := by
  unfold get_clients
  rw [get_key_ok g cb hg1 hg2, get_key_ok t cb ht1 ht2]
  rfl

/-- `rotateN` on a valid manager leaves the key list alone and advances the
index by `n` modulo the length. -/
theorem rotateN_spec (n : Nat) :
    ∀ m : APIKeyManager, m.keys ≠ [] → m.index < m.keys.length →
      rotateN m n = ⟨m.keys, (m.index + n) % m.keys.length⟩ := by
  induction n with
  | zero =>
    intro m h1 h2
    simp [rotateN, Nat.mod_eq_of_lt h2]
  | succ n ih =>
    intro m h1 h2
    have h : (m.index + 1) % m.keys.length < m.keys.length :=
      Nat.mod_lt _ (List.length_pos.mpr h1)
    have hstep : rotateN m (n + 1) =
        rotateN { m with index := (m.index + 1) % m.keys.length } n := by
      rw [rotateN, rotate_key_ok m false h1]
    have hidx : ((m.index + 1) % m.keys.length + n) % m.keys.length =
        (m.index + (n + 1)) % m.keys.length := by
      rw [Nat.mod_add_mod]
      congr 1
      omega
    rw [hstep, ih { m with index := (m.index + 1) % m.keys.length } h1 h]
    dsimp only
    rw [hidx]

/-- The `except` block with non-empty key lists: both managers rotate once,
the rebuilt clients are discarded (the client fields are untouched), and the
Failure text is emitted last. -/
theorem handleFailure_spec (st : ModuleState) (errMsg trace : String)
    (evsBefore : List Event)
    (hg1 : st.gemini.keys ≠ []) (ht1 : st.tavily.keys ≠ []) :
    handleFailure st errMsg trace evsBefore =
      ({ st with
          gemini := { st.gemini with
            index := (st.gemini.index + 1) % st.gemini.keys.length },
          tavily := { st.tavily with
            index := (st.tavily.index + 1) % st.tavily.keys.length } },
       evsBefore ++ [Event.log "⚠️ Error occurred, rotating API key..."] ++
       [Event.switchingKey ((st.gemini.index + 1) % st.gemini.keys.length + 1)] ++
       [Event.switchingKey ((st.tavily.index + 1) % st.tavily.keys.length + 1)] ++
       ([Event.usingKey ((st.gemini.index + 1) % st.gemini.keys.length + 1)] ++
        [Event.usingKey ((st.tavily.index + 1) % st.tavily.keys.length + 1)]) ++
       [Event.result ("❌ Error: " ++ errMsg ++ "\n\n" ++ trace)]) := by
  have hg : (st.gemini.index + 1) % st.gemini.keys.length < st.gemini.keys.length :=
    Nat.mod_lt _ (List.length_pos.mpr hg1)
  have ht : (st.tavily.index + 1) % st.tavily.keys.length < st.tavily.keys.length :=
    Nat.mod_lt _ (List.length_pos.mpr ht1)
  have hgc := get_clients_ok
    { st.gemini with index := (st.gemini.index + 1) % st.gemini.keys.length }
    { st.tavily with index := (st.tavily.index + 1) % st.tavily.keys.length }
    true hg1 hg ht1 ht
  simp only [handleFailure, rotate_key_ok st.gemini true hg1,
    rotate_key_ok st.tavily true ht1, hgc, if_true]

/-- A run whose pipeline invocation succeeds: key-usage logs, the four stage
messages, then exactly the final output; module state unchanged. -/
theorem run_ok_spec (st : ModuleState) (pipeline : String → PipelineResult)
    (trace query text : String)
    (hg1 : st.gemini.keys ≠ []) (hg2 : st.gemini.index < st.gemini.keys.length)
    (ht1 : st.tavily.keys ≠ []) (ht2 : st.tavily.index < st.tavily.keys.length)
    (hp : pipeline query = PipelineResult.ok text) :
    AgentRunnerThread.run st pipeline trace query =
      (st, ([Event.usingKey (st.gemini.index + 1),
             Event.usingKey (st.tavily.index + 1)] ++ stageLogs) ++
           [Event.result text]) := by
  simp only [AgentRunnerThread.run,
    get_clients_ok st.gemini st.tavily true hg1 hg2 ht1 ht2, hp, if_true]
  rfl

/-- A run whose pipeline invocation raises: key-usage logs, the four stage
messages, the rotation notice and rotation logs, the rebuilt-client logs, and
exactly the Failure text last; both rotators advance once and the client
globals are untouched. -/
theorem run_raises_spec (st : ModuleState) (pipeline : String → PipelineResult)
    (trace query errMsg : String)
    (hg1 : st.gemini.keys ≠ []) (hg2 : st.gemini.index < st.gemini.keys.length)
    (ht1 : st.tavily.keys ≠ []) (ht2 : st.tavily.index < st.tavily.keys.length)
    (hp : pipeline query = PipelineResult.raises errMsg) :
    AgentRunnerThread.run st pipeline trace query =
      ({ st with
          gemini := { st.gemini with
            index := (st.gemini.index + 1) % st.gemini.keys.length },
          tavily := { st.tavily with
            index := (st.tavily.index + 1) % st.tavily.keys.length } },
       ([Event.usingKey (st.gemini.index + 1),
         Event.usingKey (st.tavily.index + 1)] ++ stageLogs) ++
       [Event.log "⚠️ Error occurred, rotating API key..."] ++
       [Event.switchingKey ((st.gemini.index + 1) % st.gemini.keys.length + 1)] ++
       [Event.switchingKey ((st.tavily.index + 1) % st.tavily.keys.length + 1)] ++
       ([Event.usingKey ((st.gemini.index + 1) % st.gemini.keys.length + 1)] ++
        [Event.usingKey ((st.tavily.index + 1) % st.tavily.keys.length + 1)]) ++
       [Event.result ("❌ Error: " ++ errMsg ++ "\n\n" ++ trace)]) := by
  simp only [AgentRunnerThread.run,
    get_clients_ok st.gemini st.tavily true hg1 hg2 ht1 ht2, hp, if_true]
  rw [handleFailure_spec _ errMsg trace _ hg1 ht1]
  rfl

/-- A dropWhile-suffix is all-`p` exactly when the whole list is. -/
theorem dropWhile_all_iff (p : Char → Bool) (l : List Char) :
    (∀ x ∈ l.dropWhile p, p x = true) ↔ (∀ x ∈ l, p x = true) := by
  constructor
  · intro h x hx
    rw [← List.takeWhile_append_dropWhile p l] at hx
    rcases List.mem_append.mp hx with h1 | h2
    · exact List.mem_takeWhile_imp h1
    · exact h x h2
  · intro h x hx
    refine h x ?_
    rw [← List.takeWhile_append_dropWhile p l]
    exact List.mem_append_right _ hx

/-- `strip s` is empty exactly when every character of `s` is whitespace. -/
theorem strip_eq_empty_iff (s : String) :
    strip s = "" ↔ s.data.all isPySpace = true := by
  unfold strip
  rw [String.ext_iff]
  show ((s.data.dropWhile isPySpace).reverse.dropWhile isPySpace).reverse
      = ([] : List Char) ↔ _
  rw [List.reverse_eq_nil_iff, List.dropWhile_eq_nil_iff]
  simp only [List.mem_reverse]
  rw [dropWhile_all_iff, List.all_eq_true]

/-- The planning notification is a stage message. -/
theorem stageMsg_planning :
    Event.stageMsg (Event.log "📝 Planning the steps...") =
      some "📝 Planning the steps..." := rfl

/-- The searching notification is a stage message. -/
theorem stageMsg_searching :
    Event.stageMsg (Event.log "🔎 Searching information...") =
      some "🔎 Searching information..." := rfl

/-- The extracting notification is a stage message. -/
theorem stageMsg_extracting :
    Event.stageMsg (Event.log "📚 Extracting context...") =
      some "📚 Extracting context..." := rfl

/-- The summarizing notification is a stage message. -/
theorem stageMsg_summarizing :
    Event.stageMsg (Event.log "🧠 Summarizing findings...") =
      some "🧠 Summarizing findings..." := rfl

/-- The rotation notice is not a stage message. -/
theorem stageMsg_rotating :
    Event.stageMsg (Event.log "⚠️ Error occurred, rotating API key...") = none := rfl

/-- Key-usage log events are not stage messages. -/
theorem stageMsg_usingKey (n : Nat) : Event.stageMsg (Event.usingKey n) = none := rfl

/-- Key-switch log events are not stage messages. -/
theorem stageMsg_switchingKey (n : Nat) :
    Event.stageMsg (Event.switchingKey n) = none := rfl

/-- Terminal outcomes are not stage messages. -/
theorem stageMsg_result (t : String) : Event.stageMsg (Event.result t) = none := rfl

/-! ## Claims -/

/-- C2: for every non-empty credential list of length N and every in-range
starting index, calling `rotate()` exactly N times returns the rotator to its
original state, so `current()` (`get_key`) afterwards returns the same
credential as before — rotation is cyclic and wraps from the last credential
to the first. -/
theorem C2_rotate_cyclic (m : APIKeyManager) (h1 : m.keys ≠ [])
    (h2 : m.index < m.keys.length) :
    rotateN m m.keys.length = m ∧
    ∀ cb, (rotateN m m.keys.length).get_key cb = m.get_key cb := by
  have h := rotateN_spec m.keys.length m h1 h2
  rw [Nat.add_mod_right, Nat.mod_eq_of_lt h2] at h
  exact ⟨h, fun cb => by rw [h]⟩

/-- Witness for C2 at the credential list `["K1", "K2", "K3"]`, index 0. -/
theorem C2_rotate_cyclic_witness :
    rotateN ⟨["K1", "K2", "K3"], 0⟩ 3 = ⟨["K1", "K2", "K3"], 0⟩ :=
  (C2_rotate_cyclic ⟨["K1", "K2", "K3"], 0⟩ (by decide) (by decide)).1

/-- C3 counterexample: on an empty credential list `rotate()` raises
`ZeroDivisionError` (from `% 0` at the first line of `rotate_key`), which is
not the `NoCredentialsAvailable` (`ValueError`) error the claim names for
both accessors. -/
theorem C3_counterexample :
    APIKeyManager.rotate_key ⟨[], 0⟩ false = .error PyError.zeroDivisionError ∧
    PyError.zeroDivisionError ≠ PyError.valueError "No API keys available." :=
  ⟨rfl, by decide⟩

/-- C3 (amended): on an empty credential list `current()` fails with the
`NoCredentialsAvailable` error, and `rotate()` also fails and never returns a
credential — but with a division-by-zero error rather than
`NoCredentialsAvailable`. -/
theorem C3_empty_fails (m : APIKeyManager) (cb : Bool) (h : m.keys = []) :
    m.get_key cb = .error (PyError.valueError "No API keys available.") ∧
    m.rotate_key cb = .error PyError.zeroDivisionError := by
  constructor
  · unfold APIKeyManager.get_key
    rw [if_pos h]
  · unfold APIKeyManager.rotate_key
    rw [if_pos (by simp [h])]

/-- Witness for C3 (amended) at the empty rotator. -/
theorem C3_empty_fails_witness :
    APIKeyManager.get_key ⟨[], 0⟩ true =
      .error (PyError.valueError "No API keys available.") ∧
    APIKeyManager.rotate_key ⟨[], 0⟩ true = .error PyError.zeroDivisionError :=
  C3_empty_fails ⟨[], 0⟩ true rfl

/-- C6: submitting a query that is empty or consists only of whitespace shows
the validation-failure message and never starts a worker thread; any other
query starts a worker on the stripped query. -/
theorem C6_handle_run_validates (s : String) :
    (s.data.all isPySpace = true →
      handle_run s =
        HandleRunOutcome.validationFailure "⚠️ Please enter a valid question.") ∧
    (s.data.all isPySpace = false →
      handle_run s = HandleRunOutcome.workerStarted (strip s)) := by
  have hdef : handle_run s =
      if strip s = ""
      then HandleRunOutcome.validationFailure "⚠️ Please enter a valid question."
      else HandleRunOutcome.workerStarted (strip s) := rfl
  constructor
  · intro h
    rw [hdef, if_pos ((strip_eq_empty_iff s).mpr h)]
  · intro h
    have hne : strip s ≠ "" := fun hc => by
      have hall := (strip_eq_empty_iff s).mp hc
      rw [h] at hall
      exact Bool.false_ne_true hall
    rw [hdef, if_neg hne]

/-- Witness for C6: the all-whitespace queries `"   "` and `"\x1c"` (the
file-separator control character, stripped by `str.strip()`) are rejected
with the validation message; the query `" hi "` starts a worker on `"hi"`. -/
theorem C6_handle_run_validates_witness :
    handle_run "   " =
      HandleRunOutcome.validationFailure "⚠️ Please enter a valid question." ∧
    handle_run "\x1c" =
      HandleRunOutcome.validationFailure "⚠️ Please enter a valid question." ∧
    handle_run " hi " = HandleRunOutcome.workerStarted "hi" := by
  refine ⟨(C6_handle_run_validates "   ").1 (by decide),
    (C6_handle_run_validates "\x1c").1 (by decide), ?_⟩
  have h := (C6_handle_run_validates " hi ").2 (by decide)
  rw [h]
  rfl

/-- C8 counterexample: the construction-time filter (`[k for k in keys if k]`)
keeps the whitespace-only credential `" "`, so a constructed rotator can hold
a blank (all-whitespace) secret, contrary to the claim that every held
credential is non-blank. -/
theorem C8_counterexample :
    (APIKeyManager.init [some " "]).keys = [" "] ∧
    " ".data.all isPySpace = true :=
  ⟨rfl, by decide⟩

/-- C8 (amended): construction-time filtering drops exactly the absent
(`None`) and empty-string entries, so every credential held by a constructed
rotator is a non-empty secret string from the input (whitespace-only strings
are retained, not dropped). -/
theorem C8_init_filter (input : List (Option String)) (k : String)
    (hk : k ∈ (APIKeyManager.init input).keys) :
    k ≠ "" ∧ some k ∈ input := by
  unfold APIKeyManager.init at hk
  simp only [List.mem_filterMap] at hk
  obtain ⟨o, ho, hfo⟩ := hk
  cases o with
  | none => simp at hfo
  | some s =>
    by_cases hs : s = ""
    · rw [hs] at hfo
      simp at hfo
    · simp only [if_neg hs, Option.some.injEq] at hfo
      subst hfo
      exact ⟨hs, ho⟩

/-- Witness for C8 (amended) at the input `[some "k1"]`. -/
theorem C8_init_filter_witness : "k1" ≠ "" ∧ some "k1" ∈ [some "k1"] :=
  C8_init_filter [some "k1"] "k1" (by decide)

/-- C9: the `search` tool adapter forwards the query to the active search
handle (the module-level tavily client) requesting the fixed bounded result
count 2, and returns the raw structured result unchanged; it is a pure
stateless wrapper — no caching and no internal retry. -/
theorem C9_search_forwards {α : Type} (behavior : TavilyClient → String → Nat → α)
    (st : ModuleState) (query : String) :
    search behavior st query = behavior st.tavily_client query 2 := rfl

/-- C7: the client factory is pure with respect to rotator state:
`get_clients` returns both managers unchanged (neither index moves), binds
its handles to the current credentials, and any call with the same (hence
unchanged) rotator state — in particular a second consecutive call with no
intervening `rotate()` — yields the same handle pair. -/
theorem C7_get_clients_pure (g t : APIKeyManager) (cb : Bool)
    (hg1 : g.keys ≠ []) (hg2 : g.index < g.keys.length)
    (ht1 : t.keys ≠ []) (ht2 : t.index < t.keys.length) :
    ∃ pair ev, get_clients g t cb = .ok (pair, (g, t), ev) ∧
      pair.1.api_key = g.keys.get ⟨g.index, hg2⟩ ∧
      pair.2.api_key = t.keys.get ⟨t.index, ht2⟩ ∧
      ∀ pair2 mgrs2 ev2, get_clients g t cb = .ok (pair2, mgrs2, ev2) →
        pair2 = pair ∧ mgrs2 = (g, t) := by
  refine ⟨_, _, get_clients_ok g t cb hg1 hg2 ht1 ht2, rfl, rfl, ?_⟩
  intro pair2 mgrs2 ev2 h
  rw [get_clients_ok g t cb hg1 hg2 ht1 ht2] at h
  simp only [Except.ok.injEq, Prod.mk.injEq] at h
  exact ⟨h.1.symm, h.2.1.symm⟩

/-- Witness for C7 at one gemini key and one tavily key. -/
theorem C7_get_clients_pure_witness :
    ∃ pair ev, get_clients ⟨["g1"], 0⟩ ⟨["t1"], 0⟩ true =
      .ok (pair, (⟨["g1"], 0⟩, ⟨["t1"], 0⟩), ev) := by
  obtain ⟨pair, ev, h, -⟩ := C7_get_clients_pure ⟨["g1"], 0⟩ ⟨["t1"], 0⟩ true
    (by decide) (by decide) (by decide) (by decide)
  exact ⟨pair, ev, h⟩

/-- C10: initial client construction at process start fails with the
no-credentials error when either filtered key list is empty (before any query
can be submitted), and with at least one key in each slot it returns a module
state holding a (model handle, search handle) pair. -/
theorem C10_initModule_guard (gk tk : List (Option String)) :
    ((APIKeyManager.init gk).keys = [] ∨ (APIKeyManager.init tk).keys = [] →
      initModule gk tk = .error (PyError.valueError "No API keys available.")) ∧
    ((APIKeyManager.init gk).keys ≠ [] → (APIKeyManager.init tk).keys ≠ [] →
      ∃ st : ModuleState, initModule gk tk = .ok st ∧
        st.gemini = APIKeyManager.init gk ∧ st.tavily = APIKeyManager.init tk ∧
        st.external_client.base_url = BASE_URL) := by
  constructor
  · intro h
    have hgc : get_clients (APIKeyManager.init gk) (APIKeyManager.init tk) false =
        .error (PyError.valueError "No API keys available.") := by
      by_cases hgk : (APIKeyManager.init gk).keys = []
      · have hg : (APIKeyManager.init gk).get_key false =
            .error (PyError.valueError "No API keys available.") := by
          unfold APIKeyManager.get_key
          rw [if_pos hgk]
        unfold get_clients
        rw [hg]
        rfl
      · have htk : (APIKeyManager.init tk).keys = [] := h.resolve_left hgk
        have hg2 : (APIKeyManager.init gk).index < (APIKeyManager.init gk).keys.length :=
          List.length_pos.mpr hgk
        have ht : (APIKeyManager.init tk).get_key false =
            .error (PyError.valueError "No API keys available.") := by
          unfold APIKeyManager.get_key
          rw [if_pos htk]
        unfold get_clients
        rw [get_key_ok _ false hgk hg2, ht]
        rfl
    unfold initModule
    rw [hgc]
  · intro hg ht
    have hg2 : (APIKeyManager.init gk).index < (APIKeyManager.init gk).keys.length :=
      List.length_pos.mpr hg
    have ht2 : (APIKeyManager.init tk).index < (APIKeyManager.init tk).keys.length :=
      List.length_pos.mpr ht
    refine ⟨⟨APIKeyManager.init gk, APIKeyManager.init tk,
      ⟨(APIKeyManager.init gk).keys.get ⟨(APIKeyManager.init gk).index, hg2⟩, BASE_URL⟩,
      ⟨(APIKeyManager.init tk).keys.get ⟨(APIKeyManager.init tk).index, ht2⟩⟩⟩,
      ?_, rfl, rfl, rfl⟩
    unfold initModule
    rw [get_clients_ok _ _ false hg hg2 ht ht2]

/-- Witness for C10: a slot with only absent/empty entries aborts startup
with the no-credentials error; one key per slot yields a client pair. -/
theorem C10_initModule_guard_witness :
    initModule [none, some ""] [some "t1"] =
      .error (PyError.valueError "No API keys available.") ∧
    ∃ st : ModuleState, initModule [some "g1"] [some "t1"] = .ok st ∧
      st.gemini = APIKeyManager.init [some "g1"] ∧
      st.tavily = APIKeyManager.init [some "t1"] ∧
      st.external_client.base_url = BASE_URL := by
  constructor
  · exact (C10_initModule_guard [none, some ""] [some "t1"]).1 (Or.inl (by decide))
  · exact (C10_initModule_guard [some "g1"] [some "t1"]).2 (by decide) (by decide)

/-- C4: a run whose pipeline invocation raises rotates the model-slot rotator
exactly once and the search-slot rotator exactly once (each index advances by
one modulo its length, and exactly two rotation log events occur), delivers
exactly one terminal Failure outcome whose text contains the original error
message together with the diagnostic trace, and does not retry the failed
invocation within the run (the embedding applies the pipeline once; the lone
Failure outcome is the run's only terminal event). -/
theorem C4_failure_rotates_once (st st2 : ModuleState) (evs : List Event)
    (pipeline : String → PipelineResult) (trace query errMsg : String)
    (hg1 : st.gemini.keys ≠ []) (hg2 : st.gemini.index < st.gemini.keys.length)
    (ht1 : st.tavily.keys ≠ []) (ht2 : st.tavily.index < st.tavily.keys.length)
    (hp : pipeline query = PipelineResult.raises errMsg)
    (hout : AgentRunnerThread.run st pipeline trace query = (st2, evs)) :
    st2.gemini.keys = st.gemini.keys ∧
    st2.gemini.index = (st.gemini.index + 1) % st.gemini.keys.length ∧
    st2.tavily.keys = st.tavily.keys ∧
    st2.tavily.index = (st.tavily.index + 1) % st.tavily.keys.length ∧
    (evs.filter Event.isSwitching).length = 2 ∧
    evs.filterMap Event.resultText = ["❌ Error: " ++ errMsg ++ "\n\n" ++ trace] ∧
    List.IsInfix errMsg.data ("❌ Error: " ++ errMsg ++ "\n\n" ++ trace).data ∧
    List.IsInfix trace.data ("❌ Error: " ++ errMsg ++ "\n\n" ++ trace).data := by
  rw [run_raises_spec st pipeline trace query errMsg hg1 hg2 ht1 ht2 hp] at hout
  injection hout with h1 h2
  subst h1
  subst h2
  refine ⟨rfl, rfl, rfl, rfl, ?_, ?_, ?_, ?_⟩
  · simp [stageLogs, stageMessages, Event.isSwitching]
  · simp [stageLogs, stageMessages, Event.resultText]
  · exact ⟨"❌ Error: ".data, ("\n\n" ++ trace).data,
      by simp [String.data_append, List.append_assoc]⟩
  · exact ⟨("❌ Error: " ++ errMsg ++ "\n\n").data, [],
      by simp [String.data_append, List.append_assoc]⟩

/-- Witness for C4: two keys per slot, a pipeline that raises `"boom"` —
exactly two rotation events occur. -/
theorem C4_failure_rotates_once_witness :
    ((AgentRunnerThread.run
        ⟨⟨["g1", "g2"], 0⟩, ⟨["t1", "t2"], 0⟩, ⟨"g1", BASE_URL⟩, ⟨"t1"⟩⟩
        (fun _ => PipelineResult.raises "boom") "tb" "q").2.filter
      Event.isSwitching).length = 2 := by
  have h := C4_failure_rotates_once
    ⟨⟨["g1", "g2"], 0⟩, ⟨["t1", "t2"], 0⟩, ⟨"g1", BASE_URL⟩, ⟨"t1"⟩⟩
    (AgentRunnerThread.run
      ⟨⟨["g1", "g2"], 0⟩, ⟨["t1", "t2"], 0⟩, ⟨"g1", BASE_URL⟩, ⟨"t1"⟩⟩
      (fun _ => PipelineResult.raises "boom") "tb" "q").1
    (AgentRunnerThread.run
      ⟨⟨["g1", "g2"], 0⟩, ⟨["t1", "t2"], 0⟩, ⟨"g1", BASE_URL⟩, ⟨"t1"⟩⟩
      (fun _ => PipelineResult.raises "boom") "tb" "q").2
    (fun _ => PipelineResult.raises "boom") "tb" "q" "boom"
    (by decide) (by decide) (by decide) (by decide) rfl rfl
  exact h.2.2.2.2.1

/-- C5: within every run (with usable credentials) the progress notifications
appear in the fixed order planning, searching, extracting, summarizing before
the terminal outcome; the terminal outcome is delivered exactly once, and it
is the final event — no progress notification is emitted after it. -/
theorem C5_event_order (st st2 : ModuleState) (evs : List Event)
    (pipeline : String → PipelineResult) (trace query : String)
    (hg1 : st.gemini.keys ≠ []) (hg2 : st.gemini.index < st.gemini.keys.length)
    (ht1 : st.tavily.keys ≠ []) (ht2 : st.tavily.index < st.tavily.keys.length)
    (hout : AgentRunnerThread.run st pipeline trace query = (st2, evs)) :
    evs.filterMap Event.stageMsg = stageMessages ∧
    (evs.filterMap Event.resultText).length = 1 ∧
    ∃ r, evs.getLast? = some (Event.result r) := by
  cases hpq : pipeline query with
  | ok text =>
    rw [run_ok_spec st pipeline trace query text hg1 hg2 ht1 ht2 hpq] at hout
    injection hout with h1 h2
    subst h1
    subst h2
    refine ⟨?_, ?_, text, List.getLast?_concat _⟩
    · simp [stageLogs, stageMessages, stageMsg_planning, stageMsg_searching,
        stageMsg_extracting, stageMsg_summarizing, stageMsg_usingKey, stageMsg_result]
    · simp [stageLogs, stageMessages, Event.resultText]
  | raises msg =>
    rw [run_raises_spec st pipeline trace query msg hg1 hg2 ht1 ht2 hpq] at hout
    injection hout with h1 h2
    subst h1
    subst h2
    refine ⟨?_, ?_, _, List.getLast?_concat _⟩
    · simp [stageLogs, stageMessages, stageMsg_planning, stageMsg_searching,
        stageMsg_extracting, stageMsg_summarizing, stageMsg_usingKey,
        stageMsg_switchingKey, stageMsg_rotating, stageMsg_result]
    · simp [stageLogs, stageMessages, Event.resultText]

/-- Witness for C5: a successful run with one key per slot emits the four
stage notifications in order. -/
theorem C5_event_order_witness :
    (AgentRunnerThread.run ⟨⟨["g1"], 0⟩, ⟨["t1"], 0⟩, ⟨"g1", BASE_URL⟩, ⟨"t1"⟩⟩
        (fun _ => PipelineResult.ok "answer") "tb" "q").2.filterMap
      Event.stageMsg = stageMessages := by
  have h := C5_event_order ⟨⟨["g1"], 0⟩, ⟨["t1"], 0⟩, ⟨"g1", BASE_URL⟩, ⟨"t1"⟩⟩
    (AgentRunnerThread.run ⟨⟨["g1"], 0⟩, ⟨["t1"], 0⟩, ⟨"g1", BASE_URL⟩, ⟨"t1"⟩⟩
      (fun _ => PipelineResult.ok "answer") "tb" "q").1
    (AgentRunnerThread.run ⟨⟨["g1"], 0⟩, ⟨["t1"], 0⟩, ⟨"g1", BASE_URL⟩, ⟨"t1"⟩⟩
      (fun _ => PipelineResult.ok "answer") "tb" "q").2
    (fun _ => PipelineResult.ok "answer") "tb" "q"
    (by decide) (by decide) (by decide) (by decide) rfl
  exact h.1

/-- C1 (code bug): after a failed run the handler rotates both rotators and
calls `get_clients()`, but its return value is discarded (lines 134 and 155)
and the module globals `external_client`/`tavily_client` are never rebound,
so the handle pair used by the pipeline's model and tool calls in any
subsequent invocation is still bound to the startup credentials
(`"g1"`/`"t1"`), not the newly-rotated ones (`"g2"`/`"t2"`). Evaluated at the
failing input: gemini keys `["g1", "g2"]`, tavily keys `["t1", "t2"]`, a run
whose pipeline raises `"boom"`. -/
theorem C1_stale_clients_after_rotation :
    initModule [some "g1", some "g2"] [some "t1", some "t2"] =
      .ok ⟨⟨["g1", "g2"], 0⟩, ⟨["t1", "t2"], 0⟩, ⟨"g1", BASE_URL⟩, ⟨"t1"⟩⟩ ∧
    (AgentRunnerThread.run
        ⟨⟨["g1", "g2"], 0⟩, ⟨["t1", "t2"], 0⟩, ⟨"g1", BASE_URL⟩, ⟨"t1"⟩⟩
        (fun _ => PipelineResult.raises "boom") "tb" "q").1 =
      ⟨⟨["g1", "g2"], 1⟩, ⟨["t1", "t2"], 1⟩, ⟨"g1", BASE_URL⟩, ⟨"t1"⟩⟩ ∧
    (⟨⟨["g1", "g2"], 1⟩, ⟨["t1", "t2"], 1⟩, ⟨"g1", BASE_URL⟩, ⟨"t1"⟩⟩ :
      ModuleState).pipelineClients = (⟨"g1", BASE_URL⟩, ⟨"t1"⟩) ∧
    (APIKeyManager.get_key ⟨["g1", "g2"], 1⟩ false).map (fun p => p.1) = .ok "g2" ∧
    (APIKeyManager.get_key ⟨["t1", "t2"], 1⟩ false).map (fun p => p.1) = .ok "t2" ∧
    "g1" ≠ "g2" ∧ "t1" ≠ "t2" := by
  refine ⟨rfl, rfl, rfl, rfl, rfl, by decide, by decide⟩

end DeepSearch
